import Mathlib

/-!
Verification of the diagnostic-record store of the Ignite ODBC driver
(`src/modules/platforms/cpp/odbc/odbc-driver/include/ignite/odbc/diagnostic_record.h`).

The repository ships only the header: the class and method declarations (with
their documentation comments and `const` qualifiers) are source; the method
bodies, the `SqlState` / `SqlResult` / `DiagnosticField` enumerations of
`common_types.h` and the `ApplicationDataBuffer` collaborator are not in the
tree.  Definitions for those missing parts are modelled from the spec and say
so in their doc comments.
-/

/-- Modelled from the spec: the `SqlState` enumeration of `common_types.h` is
not in the tree.  The spec describes a fixed closed set of SQL diagnostic
state codes, each mapping to a 5-character standard code string and an
origin classification of "ISO 9075" versus vendor-specific.  A representative
closed set is used: three codes in the reserved class and
subclass space, two vendor-specific (HY-class) codes, and the unknown state
of the default constructor. -/
inductive SqlState where
  | unknown
  | s01004StringDataRightTruncated
  | s08001CannotConnect
  | s24000InvalidCursorState
  | sHY000GeneralError
  | sHYC00OptionalFeatureNotSupported
  deriving DecidableEq

/-- Modelled from the spec: map of each state to its 5-character SQLSTATE
code string (static lookup table; `common_types.h` is not in the tree). -/
def SqlState.codeString : SqlState → String
  | .unknown => ""
  | .s01004StringDataRightTruncated => "01004"
  | .s08001CannotConnect => "08001"
  | .s24000InvalidCursorState => "24000"
  | .sHY000GeneralError => "HY000"
  | .sHYC00OptionalFeatureNotSupported => "HYC00"

/-- Modelled from the spec: table-driven classification of each state code as
belonging to the reserved class/subclass space of the SQL standard (classes 01,
08, 24) or being vendor-specific (the HY class and the unknown state). -/
def SqlState.isIsoReserved : SqlState → Bool
  | .s01004StringDataRightTruncated => true
  | .s08001CannotConnect => true
  | .s24000InvalidCursorState => true
  | .unknown => false
  | .sHY000GeneralError => false
  | .sHYC00OptionalFeatureNotSupported => false

/-- Modelled from the spec: the origin string for standard-reserved states. -/
def originIso9075 : String := "ISO 9075"

/-- Modelled from the spec: the vendor identifier origin string for
vendor-specific states (the driver is an ODBC driver, so the ODBC document
identifier is used). -/
def originVendor : String := "ODBC 3.0"

/-- Modelled from the spec: class origin derived from the state alone via the
static table, never from the message text. -/
def SqlState.classOriginOf (s : SqlState) : String :=
  if s.isIsoReserved then originIso9075 else originVendor

/-- Modelled from the spec: subclass origin, same format and derivation as the
class origin, computed from the state alone. -/
def SqlState.subclassOriginOf (s : SqlState) : String :=
  if s.isIsoReserved then originIso9075 else originVendor

/-- Modelled from the spec: the `SqlResult` outcome enumeration of
`common_types.h` (success / success-with-info / error / no-data /
needs-data / invalid-handle) is not in the tree. -/
inductive SqlResult where
  | success
  | successWithInfo
  | error
  | noData
  | needData
  | invalidHandle
  deriving DecidableEq

/-- Modelled from the spec: the numeric return code is a pure projection of
the result enumeration following the fixed mapping the standard ODBC
interface expects (SQL_SUCCESS = 0, SQL_SUCCESS_WITH_INFO = 1,
SQL_ERROR = -1, SQL_NO_DATA = 100, SQL_NEED_DATA = 99,
SQL_INVALID_HANDLE = -2); success variants are nonnegative, error variants
distinct. -/
def sqlResultToReturnCode : SqlResult → Int
  | .success => 0
  | .successWithInfo => 1
  | .error => -1
  | .noData => 100
  | .needData => 99
  | .invalidHandle => -2

/-- Modelled from the spec: the `DiagnosticField` enumeration of
`common_types.h` is not in the tree.  The spec names four header-scoped
fields (row count, dynamic function, dynamic function code, rows affected)
and eight status-scoped fields (state, message, class origin, subclass
origin, connection name, server name, row number, column number). -/
inductive DiagnosticField where
  | headerCursorRowCount
  | headerDynamicFunction
  | headerDynamicFunctionCode
  | headerRowsAffected
  | statusSqlState
  | statusMessageText
  | statusClassOrigin
  | statusSubclassOrigin
  | statusConnectionName
  | statusServerName
  | statusRowNumber
  | statusColumnNumber
  deriving DecidableEq

/-- Scope table: the fields the spec documents as header-scoped. -/
def DiagnosticField.isHeaderScoped : DiagnosticField → Bool
  | .headerCursorRowCount => true
  | .headerDynamicFunction => true
  | .headerDynamicFunctionCode => true
  | .headerRowsAffected => true
  | _ => false

/-- Scope table: the fields the spec documents as status-scoped. -/
def DiagnosticField.isStatusScoped : DiagnosticField → Bool
  | .statusSqlState => true
  | .statusMessageText => true
  | .statusClassOrigin => true
  | .statusSubclassOrigin => true
  | .statusConnectionName => true
  | .statusServerName => true
  | .statusRowNumber => true
  | .statusColumnNumber => true
  | _ => false

/-- Modelled from the spec: the `ApplicationDataBuffer` collaborator is not in
the tree.  The sole responsibility of the core is to select the source value and
hand it to the buffer with the correct semantic type tag (string, signed
32-bit integer, signed 64-bit integer); a buffer write is therefore a typed
value. -/
inductive BufferWrite where
  | putString (value : String)
  | putInt32 (value : Int)
  | putInt64 (value : Int)
  deriving DecidableEq

/-- `StatusDiagnosticRecord` state, translated from the private section of the
class (header lines 128-158): state code, message, connection name, server
name, associated row and column numbers (int32_t). -/
structure StatusDiagnosticRecord where
  sqlState : SqlState
  message : String
  connectionName : String
  serverName : String
  rowNum : Int
  columnNum : Int
  deriving DecidableEq

/-- Modelled from the spec: the default constructor (header line 42) builds a
record with the unknown state, empty strings and zero row/column numbers
(default 0 means "not associated with a row/column"). -/
def StatusDiagnosticRecord.initRecord : StatusDiagnosticRecord :=
  { sqlState := .unknown, message := "", connectionName := "",
    serverName := "", rowNum := 0, columnNum := 0 }

/-- Modelled from the spec: accessor body missing; class origin is computed
from the state alone (header lines 63-69). -/
def StatusDiagnosticRecord.GetClassOrigin (r : StatusDiagnosticRecord) : String :=
  r.sqlState.classOriginOf

/-- Modelled from the spec: accessor body missing; subclass origin is computed
from the state alone (header lines 71-78). -/
def StatusDiagnosticRecord.GetSubclassOrigin (r : StatusDiagnosticRecord) : String :=
  r.sqlState.subclassOriginOf

/-- Modelled from the spec: accessor body missing; returns the stored message
(header lines 80-85). -/
def StatusDiagnosticRecord.GetMessage (r : StatusDiagnosticRecord) : String :=
  r.message

/-- Modelled from the spec: accessor body missing; returns the stored
connection name (header lines 87-93). -/
def StatusDiagnosticRecord.GetConnectionName (r : StatusDiagnosticRecord) : String :=
  r.connectionName

/-- Modelled from the spec: accessor body missing; returns the stored server
name (header lines 95-101). -/
def StatusDiagnosticRecord.GetServerName (r : StatusDiagnosticRecord) : String :=
  r.serverName

/-- Modelled from the spec: accessor body missing; returns the five-character
SQLSTATE diagnostic code of the stored state (header lines 103-108). -/
def StatusDiagnosticRecord.GetSqlState (r : StatusDiagnosticRecord) : String :=
  r.sqlState.codeString

/-- Modelled from the spec: accessor body missing; returns the stored row
number (header lines 110-117). -/
def StatusDiagnosticRecord.GetRowNumber (r : StatusDiagnosticRecord) : Int :=
  r.rowNum

/-- Modelled from the spec: accessor body missing; returns the stored column
number (header lines 119-126). -/
def StatusDiagnosticRecord.GetColumnNumber (r : StatusDiagnosticRecord) : Int :=
  r.columnNum

/-- `HeaderDiagnosticRecord` state, translated from the private section of the
class (header lines 282-316): row count (int64_t), dynamic function string,
dynamic function code (int32_t), operation result, rows affected (int32_t),
and the owned ordered vector of status records. -/
structure HeaderDiagnosticRecord where
  rowCount : Int
  dynamicFunction : String
  dynamicFunctionCode : Int
  result : SqlResult
  rowsAffected : Int
  statusRecords : List StatusDiagnosticRecord
  deriving DecidableEq

/-- Modelled from the spec: the default constructor (header line 179) sets the
construction-time defaults — a success-equivalent result, empty row
count / function / rows-affected, and an empty status sequence. -/
def HeaderDiagnosticRecord.initHeader : HeaderDiagnosticRecord :=
  { rowCount := 0, dynamicFunction := "", dynamicFunctionCode := 0,
    result := .success, rowsAffected := 0, statusRecords := [] }

/-- Modelled from the spec: `SetHeaderRecord` (header line 191) stores the
outcome enumeration; the numeric return code is not independently settable. -/
def HeaderDiagnosticRecord.SetHeaderRecord (h : HeaderDiagnosticRecord)
    (result : SqlResult) : HeaderDiagnosticRecord :=
  { h with result := result }

/-- Modelled from the spec: `AddStatusRecord` (header line 198) appends the
record to the end of the owned sequence and touches nothing else. -/
def HeaderDiagnosticRecord.AddStatusRecord (h : HeaderDiagnosticRecord)
    (record : StatusDiagnosticRecord) : HeaderDiagnosticRecord :=
  { h with statusRecords := h.statusRecords ++ [record] }

/-- Modelled from the spec: `Reset` (header line 203) clears every field back
to the construction-time defaults and empties the status sequence; it has no
failure mode. -/
def HeaderDiagnosticRecord.Reset (_h : HeaderDiagnosticRecord) :
    HeaderDiagnosticRecord :=
  HeaderDiagnosticRecord.initHeader

/-- Modelled from the spec: accessor body missing; returns the stored result
of the last operation (header line 210). -/
def HeaderDiagnosticRecord.GetOperaionResult (h : HeaderDiagnosticRecord) :
    SqlResult :=
  h.result

/-- Modelled from the spec: `GetReturnCode` (header line 217) is the pure
projection of the stored result through the fixed standard mapping. -/
def HeaderDiagnosticRecord.GetReturnCode (h : HeaderDiagnosticRecord) : Int :=
  sqlResultToReturnCode h.result

/-- Modelled from the spec: accessor body missing (header line 224). -/
def HeaderDiagnosticRecord.GetRowCount (h : HeaderDiagnosticRecord) : Int :=
  h.rowCount

/-- Modelled from the spec: accessor body missing (header line 232). -/
def HeaderDiagnosticRecord.GetDynamicFunction (h : HeaderDiagnosticRecord) :
    String :=
  h.dynamicFunction

/-- Modelled from the spec: accessor body missing (header line 240). -/
def HeaderDiagnosticRecord.GetDynamicFunctionCode (h : HeaderDiagnosticRecord) :
    Int :=
  h.dynamicFunctionCode

/-- Modelled from the spec: accessor body missing (header line 248). -/
def HeaderDiagnosticRecord.GetRowsAffected (h : HeaderDiagnosticRecord) : Int :=
  h.rowsAffected

/-- Modelled from the spec: `GetStatusRecordsNumber` (header line 255) is the
count of owned status records, 0 after a reset. -/
def HeaderDiagnosticRecord.GetStatusRecordsNumber (h : HeaderDiagnosticRecord) :
    Int :=
  (h.statusRecords.length : Int)

/-- Modelled from the spec: `GetStatusRecord` (header line 263) returns the
idx-th status entry under the precondition `0 <= idx < count`; violating the
precondition is undefined in the source, rendered total here with the
default record as fallback (never exercised in range). -/
def HeaderDiagnosticRecord.GetStatusRecord (h : HeaderDiagnosticRecord)
    (idx : Int) : StatusDiagnosticRecord :=
  h.statusRecords.getD idx.toNat StatusDiagnosticRecord.initRecord

/-- Modelled from the spec: `IsSuccessful` (header line 270) is true iff the
stored result is one of the success-equivalent variants. -/
def HeaderDiagnosticRecord.IsSuccessful (h : HeaderDiagnosticRecord) : Bool :=
  match h.result with
  | .success => true
  | .successWithInfo => true
  | _ => false

/-- Modelled from the spec: the header-scope half of the field-dispatch table —
for a header-scoped field the selected source value with its semantic type
tag (row count as signed 64-bit, dynamic function as string, dynamic
function code and rows affected as signed 32-bit); `none` for every field
that does not apply at header scope. -/
def headerFieldValue (h : HeaderDiagnosticRecord) :
    DiagnosticField → Option BufferWrite
  | .headerCursorRowCount => some (.putInt64 h.GetRowCount)
  | .headerDynamicFunction => some (.putString h.GetDynamicFunction)
  | .headerDynamicFunctionCode => some (.putInt32 h.GetDynamicFunctionCode)
  | .headerRowsAffected => some (.putInt32 h.GetRowsAffected)
  | _ => none

/-- Modelled from the spec: the status-scope half of the field-dispatch table —
for a status-scoped field the value of the corresponding accessor of the
addressed record with its semantic type tag; `none` for header-only fields. -/
def statusFieldValue (r : StatusDiagnosticRecord) :
    DiagnosticField → Option BufferWrite
  | .statusSqlState => some (.putString r.GetSqlState)
  | .statusMessageText => some (.putString r.GetMessage)
  | .statusClassOrigin => some (.putString r.GetClassOrigin)
  | .statusSubclassOrigin => some (.putString r.GetSubclassOrigin)
  | .statusConnectionName => some (.putString r.GetConnectionName)
  | .statusServerName => some (.putString r.GetServerName)
  | .statusRowNumber => some (.putInt32 r.GetRowNumber)
  | .statusColumnNumber => some (.putInt32 r.GetColumnNumber)
  | _ => none

/-- Outcome of one `GetField` call before the buffer reports truncation: the
value handed to the buffer, the distinct "field not applicable" outcome
(carrying no buffer write — the buffer is not touched), or the distinct
"no data" outcome for an out-of-range status index. -/
inductive GetFieldOutcome where
  | success (write : BufferWrite)
  | notApplicable
  | noData
  deriving DecidableEq

/-- Modelled from the spec: the field-dispatch algorithm of `GetField` (header
line 280).  `recNum = 0` targets the header record: header-scoped fields
yield their value, any other field the "not applicable" outcome without
touching the buffer.  `recNum >= 1` targets status entry `recNum - 1`: out
of range yields "no data"; in range, status-scoped fields yield the
corresponding accessor value and header-only fields "not applicable".
(Negative `recNum` is not specified; it addresses no record and is rendered
as "no data".) -/
def HeaderDiagnosticRecord.GetField (h : HeaderDiagnosticRecord)
    (recNum : Int) (field : DiagnosticField) : GetFieldOutcome :=
  if recNum = 0 then
    match headerFieldValue h field with
    | some w => .success w
    | none => .notApplicable
  else if 1 ≤ recNum ∧ recNum - 1 < h.GetStatusRecordsNumber then
    match statusFieldValue (h.GetStatusRecord (recNum - 1)) field with
    | some w => .success w
    | none => .notApplicable
  else
    .noData

/-- Modelled from the spec: the `SqlResult` a `GetField` call reports, given
whether the buffer collaborator signalled truncation — success when the
value was written in full, success-with-info when written but truncated,
error for an illegal field/record combination, no-data for an out-of-range
status index. -/
def getFieldSqlResult (outcome : GetFieldOutcome) (bufferTruncated : Bool) :
    SqlResult :=
  match outcome with
  | .success _ => if bufferTruncated then .successWithInfo else .success
  | .notApplicable => .error
  | .noData => .noData

/-- The header states reachable through the public mutating interface from the
construction-time default: any sequence of `Reset`, `SetHeaderRecord` and
`AddStatusRecord` calls. -/
inductive Reachable : HeaderDiagnosticRecord → Prop where
  | init : Reachable HeaderDiagnosticRecord.initHeader
  | reset (h : HeaderDiagnosticRecord) : Reachable h → Reachable h.Reset
  | setHeader (h : HeaderDiagnosticRecord) (r : SqlResult) :
      Reachable h → Reachable (h.SetHeaderRecord r)
  | addStatus (h : HeaderDiagnosticRecord) (r : StatusDiagnosticRecord) :
      Reachable h → Reachable (h.AddStatusRecord r)

/-- A whole sequence of `AddStatusRecord` calls, in order. -/
def HeaderDiagnosticRecord.addAll (h : HeaderDiagnosticRecord)
    (rs : List StatusDiagnosticRecord) : HeaderDiagnosticRecord :=
  rs.foldl HeaderDiagnosticRecord.AddStatusRecord h

/-- Translates the line `IGNITE_NO_COPY_ASSIGNMENT(HeaderDiagnosticRecord)` in
the private section (header line 283): the copy constructor and the copy
assignment operator are declared private and never defined, so the class
offers no copy operation at all. -/
def headerDiagnosticRecordCopyable : Bool := false

/-- The query (const) methods of `HeaderDiagnosticRecord`, header lines
210-280: every one is declared `const` in the source. -/
inductive Query where
  | getOperaionResult
  | getReturnCode
  | getRowCount
  | getDynamicFunction
  | getDynamicFunctionCode
  | getRowsAffected
  | getStatusRecordsNumber
  | getStatusRecord (idx : Int)
  | isSuccessful
  | getField (recNum : Int) (field : DiagnosticField)
  deriving DecidableEq

/-- Value returned by a query, tagged with its type. -/
inductive QueryValue where
  | intValue (i : Int)
  | strValue (s : String)
  | resValue (r : SqlResult)
  | boolValue (b : Bool)
  | recValue (r : StatusDiagnosticRecord)
  | outcomeValue (o : GetFieldOutcome)
  deriving DecidableEq

/-- State-passing rendering of the const query methods of the header record:
each method returns its value together with the store it leaves behind,
which the `const` qualifier in the source forces to be the input store. -/
def runQuery (h : HeaderDiagnosticRecord) :
    Query → QueryValue × HeaderDiagnosticRecord
  | .getOperaionResult => (.resValue h.GetOperaionResult, h)
  | .getReturnCode => (.intValue h.GetReturnCode, h)
  | .getRowCount => (.intValue h.GetRowCount, h)
  | .getDynamicFunction => (.strValue h.GetDynamicFunction, h)
  | .getDynamicFunctionCode => (.intValue h.GetDynamicFunctionCode, h)
  | .getRowsAffected => (.intValue h.GetRowsAffected, h)
  | .getStatusRecordsNumber => (.intValue h.GetStatusRecordsNumber, h)
  | .getStatusRecord idx => (.recValue (h.GetStatusRecord idx), h)
  | .isSuccessful => (.boolValue h.IsSuccessful, h)
  | .getField recNum field => (.outcomeValue (h.GetField recNum field), h)

/-- The accessor (const) methods of `StatusDiagnosticRecord`, header lines
69-126: every one is declared `const` in the source. -/
inductive StatusQuery where
  | getClassOrigin
  | getSubclassOrigin
  | getMessage
  | getConnectionName
  | getServerName
  | getSqlState
  | getRowNumber
  | getColumnNumber
  deriving DecidableEq

/-- State-passing rendering of the const accessors of a status record. -/
def runStatusQuery (r : StatusDiagnosticRecord) :
    StatusQuery → QueryValue × StatusDiagnosticRecord
  | .getClassOrigin => (.strValue r.GetClassOrigin, r)
  | .getSubclassOrigin => (.strValue r.GetSubclassOrigin, r)
  | .getMessage => (.strValue r.GetMessage, r)
  | .getConnectionName => (.strValue r.GetConnectionName, r)
  | .getServerName => (.strValue r.GetServerName, r)
  | .getSqlState => (.strValue r.GetSqlState, r)
  | .getRowNumber => (.intValue r.GetRowNumber, r)
  | .getColumnNumber => (.intValue r.GetColumnNumber, r)

/-- First concrete status record of the enumeration scenario (a
standard-reserved state). -/
def sampleRecord1 : StatusDiagnosticRecord :=
  { sqlState := .s01004StringDataRightTruncated, message := "string truncated",
    connectionName := "conn", serverName := "srv", rowNum := 1, columnNum := 2 }

/-- Second concrete status record of the enumeration scenario (a distinct
standard-reserved state). -/
def sampleRecord2 : StatusDiagnosticRecord :=
  { sqlState := .s08001CannotConnect, message := "cannot connect",
    connectionName := "conn", serverName := "srv", rowNum := 0, columnNum := 0 }

/-- Third concrete status record of the enumeration scenario (a
vendor-specific state). -/
def sampleRecord3 : StatusDiagnosticRecord :=
  { sqlState := .sHY000GeneralError, message := "general error",
    connectionName := "conn", serverName := "srv", rowNum := 3, columnNum := 4 }

/-- A header store holding one status record. -/
def sampleHeader1 : HeaderDiagnosticRecord :=
  HeaderDiagnosticRecord.initHeader.AddStatusRecord sampleRecord1

/-- The header store of the enumeration scenario: reset, then three status
records with distinct states appended in order. -/
def sampleHeader3 : HeaderDiagnosticRecord :=
  ((HeaderDiagnosticRecord.initHeader.Reset.AddStatusRecord
      sampleRecord1).AddStatusRecord sampleRecord2).AddStatusRecord sampleRecord3

/-- The status sequence after a whole run of appends is the old sequence with
the appended records at the end, in order. -/
theorem addAll_statusRecords (h : HeaderDiagnosticRecord)
    (rs : List StatusDiagnosticRecord) :
    (h.addAll rs).statusRecords = h.statusRecords ++ rs := by
  induction rs generalizing h with
  | nil => simp [HeaderDiagnosticRecord.addAll]
  | cons r rest ih =>
      have hstep : h.addAll (r :: rest) = (h.AddStatusRecord r).addAll rest := rfl
      rw [hstep, ih]
      simp [HeaderDiagnosticRecord.AddStatusRecord]

/-- The enumeration-scenario store is reachable through the public mutating
interface. -/
theorem sampleHeader3_reachable : Reachable sampleHeader3 :=
  Reachable.addStatus _ _ (Reachable.addStatus _ _ (Reachable.addStatus _ _
    (Reachable.reset _ Reachable.init)))

/-- Claim C1: in every reachable header state, `GetField` with `recNum >= 1`
and `recNum - 1 >= GetStatusRecordsNumber()` returns the distinct no-data
outcome, and for every in-range probe (`1 <= m`, `m - 1 < count`) it never
returns no-data — so probing `recNum = 1, 2, 3, ...` terminates exactly
after the current record count. -/
theorem getField_noData_exactly_out_of_range (h : HeaderDiagnosticRecord)
    (_hr : Reachable h) (recNum : Int) (field : DiagnosticField)
    (h1 : 1 ≤ recNum) (h2 : h.GetStatusRecordsNumber ≤ recNum - 1) :
    h.GetField recNum field = GetFieldOutcome.noData ∧
    ∀ (m : Int), 1 ≤ m → m - 1 < h.GetStatusRecordsNumber →
      h.GetField m field ≠ GetFieldOutcome.noData := by
  constructor
  · unfold HeaderDiagnosticRecord.GetField
    rw [if_neg (by omega), if_neg (by rintro ⟨-, hlt⟩; omega)]
  · intro m hm1 hm2
    unfold HeaderDiagnosticRecord.GetField
    rw [if_neg (by omega), if_pos ⟨hm1, hm2⟩]
    rcases hsv : statusFieldValue (h.GetStatusRecord (m - 1)) field with - | w <;>
      simp [hsv]

/-- Claim C1 witness: in the enumeration scenario with three records, probing
record 4 yields no-data while probing record 1 does not. -/
theorem getField_noData_exactly_out_of_range_witness :
    sampleHeader3.GetField 4 DiagnosticField.statusMessageText
        = GetFieldOutcome.noData ∧
    sampleHeader3.GetField 1 DiagnosticField.statusMessageText
        ≠ GetFieldOutcome.noData := by
  have h := getField_noData_exactly_out_of_range sampleHeader3
    sampleHeader3_reachable 4 DiagnosticField.statusMessageText
    (by decide) (by decide)
  exact ⟨h.1, h.2 1 (by decide) (by decide)⟩

/-- Claim C2: for `1 <= n <= GetStatusRecordsNumber()` and every
status-scoped field, `GetField` hands the buffer exactly the value of the
corresponding accessor of `GetStatusRecord(n - 1)`, with the right semantic
type tag, and the reported result is success, or success-with-info exactly
when the buffer signals truncation. -/
theorem getField_status_fields_match_accessors (h : HeaderDiagnosticRecord)
    (n : Int) (h1 : 1 ≤ n) (h2 : n ≤ h.GetStatusRecordsNumber) :
    h.GetField n DiagnosticField.statusSqlState
        = GetFieldOutcome.success
            (BufferWrite.putString ((h.GetStatusRecord (n - 1)).GetSqlState)) ∧
    h.GetField n DiagnosticField.statusMessageText
        = GetFieldOutcome.success
            (BufferWrite.putString ((h.GetStatusRecord (n - 1)).GetMessage)) ∧
    h.GetField n DiagnosticField.statusClassOrigin
        = GetFieldOutcome.success
            (BufferWrite.putString ((h.GetStatusRecord (n - 1)).GetClassOrigin)) ∧
    h.GetField n DiagnosticField.statusSubclassOrigin
        = GetFieldOutcome.success
            (BufferWrite.putString ((h.GetStatusRecord (n - 1)).GetSubclassOrigin)) ∧
    h.GetField n DiagnosticField.statusConnectionName
        = GetFieldOutcome.success
            (BufferWrite.putString ((h.GetStatusRecord (n - 1)).GetConnectionName)) ∧
    h.GetField n DiagnosticField.statusServerName
        = GetFieldOutcome.success
            (BufferWrite.putString ((h.GetStatusRecord (n - 1)).GetServerName)) ∧
    h.GetField n DiagnosticField.statusRowNumber
        = GetFieldOutcome.success
            (BufferWrite.putInt32 ((h.GetStatusRecord (n - 1)).GetRowNumber)) ∧
    h.GetField n DiagnosticField.statusColumnNumber
        = GetFieldOutcome.success
            (BufferWrite.putInt32 ((h.GetStatusRecord (n - 1)).GetColumnNumber)) ∧
    ∀ (field : DiagnosticField) (truncated : Bool),
      field.isStatusScoped = true →
        getFieldSqlResult (h.GetField n field) truncated
          = (if truncated then SqlResult.successWithInfo else SqlResult.success) := by
  have hn0 : ¬ n = 0 := by omega
  have hin : 1 ≤ n ∧ n - 1 < h.GetStatusRecordsNumber := ⟨h1, by omega⟩
  have hfield : ∀ field : DiagnosticField,
      h.GetField n field
        = match statusFieldValue (h.GetStatusRecord (n - 1)) field with
          | some w => GetFieldOutcome.success w
          | none => GetFieldOutcome.notApplicable := by
    intro field
    unfold HeaderDiagnosticRecord.GetField
    rw [if_neg hn0, if_pos hin]
  refine ⟨hfield _, hfield _, hfield _, hfield _, hfield _, hfield _,
    hfield _, hfield _, ?_⟩
  intro field truncated hf
  rw [hfield field]
  cases field <;> first
    | rfl
    | simp [DiagnosticField.isStatusScoped] at hf

/-- Claim C2 witness: in the enumeration scenario, querying record 2 for the
message text hands the buffer the message of the second appended record. -/
theorem getField_status_fields_match_accessors_witness :
    sampleHeader3.GetField 2 DiagnosticField.statusMessageText
      = GetFieldOutcome.success
          (BufferWrite.putString
            ((sampleHeader3.GetStatusRecord 1).GetMessage)) := by
  have h := getField_status_fields_match_accessors sampleHeader3 2
    (by decide) (by decide)
  exact h.2.1

/-- Claim C3: at `recNum = 0` every header-scoped field succeeds with the
value of the matching header accessor, every status-scoped field yields the
distinct not-applicable outcome (which carries no buffer write, so the
buffer is untouched); symmetrically, at an in-range status index every
header-only field yields not-applicable. -/
theorem getField_scope_dispatch (h : HeaderDiagnosticRecord) :
    (h.GetField 0 DiagnosticField.headerCursorRowCount
        = GetFieldOutcome.success (BufferWrite.putInt64 h.GetRowCount) ∧
      h.GetField 0 DiagnosticField.headerDynamicFunction
        = GetFieldOutcome.success (BufferWrite.putString h.GetDynamicFunction) ∧
      h.GetField 0 DiagnosticField.headerDynamicFunctionCode
        = GetFieldOutcome.success (BufferWrite.putInt32 h.GetDynamicFunctionCode) ∧
      h.GetField 0 DiagnosticField.headerRowsAffected
        = GetFieldOutcome.success (BufferWrite.putInt32 h.GetRowsAffected)) ∧
    (∀ field : DiagnosticField, field.isStatusScoped = true →
        h.GetField 0 field = GetFieldOutcome.notApplicable) ∧
    (∀ (n : Int) (field : DiagnosticField),
        1 ≤ n → n ≤ h.GetStatusRecordsNumber → field.isHeaderScoped = true →
          h.GetField n field = GetFieldOutcome.notApplicable) := by
  refine ⟨⟨rfl, rfl, rfl, rfl⟩, ?_, ?_⟩
  · intro field hf
    cases field <;> first
      | rfl
      | simp [DiagnosticField.isStatusScoped] at hf
  · intro n field h1 h2 hf
    unfold HeaderDiagnosticRecord.GetField
    rw [if_neg (by omega), if_pos ⟨h1, by omega⟩]
    cases field <;> first
      | rfl
      | simp [DiagnosticField.isHeaderScoped] at hf

/-- Claim C3 witness: on a store with one record, a status-only field at
record 0 and a header-only field at record 1 both yield not-applicable. -/
theorem getField_scope_dispatch_witness :
    sampleHeader1.GetField 0 DiagnosticField.statusMessageText
        = GetFieldOutcome.notApplicable ∧
    sampleHeader1.GetField 1 DiagnosticField.headerCursorRowCount
        = GetFieldOutcome.notApplicable := by
  have h := getField_scope_dispatch sampleHeader1
  exact ⟨h.2.1 DiagnosticField.statusMessageText rfl,
    h.2.2 1 DiagnosticField.headerCursorRowCount (by decide) (by decide) rfl⟩

/-- Claim C4: after a reset, a run of `k` appends leaves exactly `k` status
records, and the i-th stored record is the i-th appended one, unmodified
and in insertion order. -/
theorem addStatusRecord_count_and_order (h : HeaderDiagnosticRecord)
    (rs : List StatusDiagnosticRecord) :
    (h.Reset.addAll rs).GetStatusRecordsNumber = (rs.length : Int) ∧
    ∀ i : Nat, i < rs.length →
      (h.Reset.addAll rs).GetStatusRecord (i : Int)
        = rs.getD i StatusDiagnosticRecord.initRecord := by
  have hsr : (h.Reset.addAll rs).statusRecords = rs := by
    rw [addAll_statusRecords]
    rfl
  constructor
  · simp [HeaderDiagnosticRecord.GetStatusRecordsNumber, hsr]
  · intro i hi
    simp [HeaderDiagnosticRecord.GetStatusRecord, hsr]

/-- Claim C4 witness: appending the three scenario records after a reset
yields a count of 3 and returns the second record at index 1. -/
theorem addStatusRecord_count_and_order_witness :
    (HeaderDiagnosticRecord.initHeader.Reset.addAll
        [sampleRecord1, sampleRecord2, sampleRecord3]).GetStatusRecordsNumber
        = 3 ∧
    (HeaderDiagnosticRecord.initHeader.Reset.addAll
        [sampleRecord1, sampleRecord2, sampleRecord3]).GetStatusRecord 1
        = sampleRecord2 := by
  have h := addStatusRecord_count_and_order HeaderDiagnosticRecord.initHeader
    [sampleRecord1, sampleRecord2, sampleRecord3]
  exact ⟨h.1, h.2 1 (by decide)⟩

/-- Claim C5 counterexample: the claim asserts the header record is copyable
with value semantics, but the source disables copying outright —
`IGNITE_NO_COPY_ASSIGNMENT(HeaderDiagnosticRecord)` declares the copy
constructor and copy assignment private and undefined. -/
theorem headerCopy_value_semantics_counterexample :
    ¬ headerDiagnosticRecordCopyable = true := by decide

/-- Claim C5 (amended): `HeaderDiagnosticRecord` offers no copy operation at
all; its status sequence can never be duplicated or shared through a copy,
so exclusive ownership holds vacuously. -/
theorem headerRecord_not_copyable :
    headerDiagnosticRecordCopyable = false := rfl

/-- Claim C6: the return code is a pure, deterministic, total projection of
the stored result — after `SetHeaderRecord r` it equals the fixed mapping
applied to `r`; success variants project to nonnegative codes, the error
variant to a distinct negative code; and in every reachable state the
return code agrees with the projection of the stored result. -/
theorem returnCode_pure_projection :
    (∀ (h : HeaderDiagnosticRecord) (r : SqlResult),
        (h.SetHeaderRecord r).GetReturnCode = sqlResultToReturnCode r) ∧
    (0 ≤ sqlResultToReturnCode SqlResult.success ∧
      0 ≤ sqlResultToReturnCode SqlResult.successWithInfo) ∧
    (sqlResultToReturnCode SqlResult.error < 0 ∧
      ∀ (r : SqlResult),
        (r = SqlResult.success ∨ r = SqlResult.successWithInfo) →
          sqlResultToReturnCode SqlResult.error ≠ sqlResultToReturnCode r) ∧
    (∀ (h : HeaderDiagnosticRecord), Reachable h →
        h.GetReturnCode = sqlResultToReturnCode h.GetOperaionResult) := by
  refine ⟨fun h r => rfl, ⟨by decide, by decide⟩, ⟨by decide, ?_⟩,
    fun h _ => rfl⟩
  rintro r (rfl | rfl) <;> decide

/-- Claim C6 witness: concrete instances — setting the error result projects
to its fixed code, the error code differs from the success code, and the
initial (reachable) store is self-consistent. -/
theorem returnCode_pure_projection_witness :
    (HeaderDiagnosticRecord.initHeader.SetHeaderRecord
        SqlResult.error).GetReturnCode = sqlResultToReturnCode SqlResult.error ∧
    sqlResultToReturnCode SqlResult.error
        ≠ sqlResultToReturnCode SqlResult.success ∧
    HeaderDiagnosticRecord.initHeader.GetReturnCode
        = sqlResultToReturnCode
            HeaderDiagnosticRecord.initHeader.GetOperaionResult :=
  ⟨returnCode_pure_projection.1 HeaderDiagnosticRecord.initHeader
      SqlResult.error,
    returnCode_pure_projection.2.2.1.2 SqlResult.success (Or.inl rfl),
    returnCode_pure_projection.2.2.2 HeaderDiagnosticRecord.initHeader
      Reachable.init⟩

/-- Claim C7: after storing any result, `IsSuccessful` is true exactly when
the stored result is one of the success-equivalent variants (success or
success-with-info) and false for every other variant. -/
theorem isSuccessful_iff_success_equivalent (h : HeaderDiagnosticRecord)
    (r : SqlResult) :
    ((h.SetHeaderRecord r).IsSuccessful = true ↔
      (r = SqlResult.success ∨ r = SqlResult.successWithInfo)) ∧
    ((h.SetHeaderRecord r).IsSuccessful = false ↔
      ¬ (r = SqlResult.success ∨ r = SqlResult.successWithInfo)) := by
  cases r <;>
    simp [HeaderDiagnosticRecord.SetHeaderRecord,
      HeaderDiagnosticRecord.IsSuccessful]

/-- Claim C8: the class and subclass origins of a status record are total,
table-driven functions of the state alone — independent of message and
context strings — yielding the ISO 9075 string for standard-reserved states
and the vendor identifier string otherwise, verified on one concrete code
of each kind. -/
theorem origin_table_driven :
    (∀ (s : SqlState) (m c sv : String) (rn cn : Int),
        (StatusDiagnosticRecord.mk s m c sv rn cn).GetClassOrigin
            = (if s.isIsoReserved then originIso9075 else originVendor) ∧
        (StatusDiagnosticRecord.mk s m c sv rn cn).GetSubclassOrigin
            = (if s.isIsoReserved then originIso9075 else originVendor)) ∧
    SqlState.s08001CannotConnect.isIsoReserved = true ∧
    SqlState.sHY000GeneralError.isIsoReserved = false ∧
    sampleRecord2.GetClassOrigin = "ISO 9075" ∧
    sampleRecord2.GetSubclassOrigin = "ISO 9075" ∧
    sampleRecord3.GetClassOrigin = originVendor ∧
    sampleRecord3.GetSubclassOrigin = originVendor :=
  ⟨fun _ _ _ _ _ _ => ⟨rfl, rfl⟩, rfl, rfl, rfl, rfl, rfl, rfl⟩

/-- Claim C9: `Reset` returns the store to the construction-time defaults
from any prior state — zero status records, default header scalars, the
success default result (so `IsSuccessful` is true) — and is total, with no
failure mode. -/
theorem reset_restores_defaults (h : HeaderDiagnosticRecord) :
    h.Reset = HeaderDiagnosticRecord.initHeader ∧
    h.Reset.GetStatusRecordsNumber = 0 ∧
    h.Reset.GetRowCount = 0 ∧
    h.Reset.GetDynamicFunction = "" ∧
    h.Reset.GetDynamicFunctionCode = 0 ∧
    h.Reset.GetRowsAffected = 0 ∧
    h.Reset.GetOperaionResult = SqlResult.success ∧
    h.Reset.IsSuccessful = true :=
  ⟨rfl, rfl, rfl, rfl, rfl, rfl, rfl, rfl⟩

/-- Claim C10: every query method declared const — the header queries
including `GetField`, and every status-record accessor — leaves the store
unchanged, interposing any query between two observations changes nothing,
and repeating a query yields the same value. -/
theorem const_queries_leave_store_unchanged :
    (∀ (h : HeaderDiagnosticRecord) (q : Query), (runQuery h q).2 = h) ∧
    (∀ (h : HeaderDiagnosticRecord) (q q' : Query),
        runQuery ((runQuery h q').2) q = runQuery h q) ∧
    (∀ (r : StatusDiagnosticRecord) (sq : StatusQuery),
        (runStatusQuery r sq).2 = r) ∧
    (∀ (r : StatusDiagnosticRecord) (sq sq' : StatusQuery),
        runStatusQuery ((runStatusQuery r sq').2) sq = runStatusQuery r sq) := by
  refine ⟨?_, ?_, ?_, ?_⟩
  · intro h q; cases q <;> rfl
  · intro h q q'; cases q' <;> rfl
  · intro r sq; cases sq <;> rfl
  · intro r sq sq'; cases sq' <;> rfl
